import Mathlib

/-!
Verification of the template plugin compiled model
(src/src/plugins/template/src/compiled_model.cpp).

The development shallowly embeds the C++ code: byte streams are lists of
natural numbers, the 8-byte unsigned length fields written by
`export_model` are modelled as little-endian byte lists, exceptions become
an `Except` error type, and property values become a small inductive type.
Collaborators of this file that live elsewhere in the repository
(the `ov::pass::Serialize` pass, `Configuration::Get`,
`Plugin::import_model`, the stream-executor configuration keys) are
modelled from the specification, as marked on each definition.
-/

namespace OvTemplate

/-- Little-endian byte list of width `k` for the natural number `n`,
mirroring a `k`-byte unsigned integer written to a byte stream. -/
def leBytes : Nat → Nat → List Nat
  | 0, _ => []
  | k + 1, n => n % 256 :: leBytes k (n / 256)

/-- The 8-byte unsigned integer field written by
`model_stream.write(reinterpret_cast<char*>(&dataSize), sizeof(dataSize))`
for `std::uint64_t dataSize` (host little-endian). -/
def u64le (n : Nat) : List Nat :=
  leBytes 8 n

/-- Read back a little-endian byte list as a natural number. -/
def fromLE : List Nat → Nat
  | [] => 0
  | b :: bs => b + 256 * fromLE bs

/-- An output byte stream (`std::ostream`): the bytes written so far. -/
structure OStream where
  data : List Nat
deriving DecidableEq, Repr

/-- `stream.write(buf, n)` appends `n` bytes to the stream. -/
def OStream.write (st : OStream) (bs : List Nat) : OStream :=
  ⟨st.data ++ bs⟩

/-- Bytes of a string, one entry per character code. -/
def bytesOfString (s : String) : List Nat :=
  s.data.map Char.toNat

/-- Inverse of `bytesOfString` on valid character codes. -/
def stringOfBytes (l : List Nat) : String :=
  String.mk (l.map Char.ofNat)

/-- A computation graph (`ov::Model`). Modelled from the spec: a graph has
a name and opaque content; the structural description produced by the
external serializer encodes both, and the constants blob holds the
weights. We model the graph by its friendly name, its structural body
bytes and its constants bytes. -/
structure Model where
  friendlyName : String
  body : List Nat
  constants : List Nat
deriving DecidableEq, Repr

/-- Modelled from the spec: `ov::pass::Serialize` (external collaborator,
not under src/) writes the structural description of the graph — which
encodes the full graph including its name — into the xml stream. We model
it as a length-prefixed name followed by the body bytes. -/
def serializeStruct (m : Model) : List Nat :=
  u64le (bytesOfString m.friendlyName).length ++ (bytesOfString m.friendlyName ++ m.body)

/-- Modelled from the spec: `ov::pass::Serialize` writes the
constants/weights blob into the bin stream. -/
def serializeBin (m : Model) : List Nat :=
  m.constants

/-- Reads the 8-byte unsigned length field from the head of a byte
stream, returning the value and the remaining bytes. -/
def readU64 (l : List Nat) : Option (Nat × List Nat) :=
  if 8 ≤ l.length then some (fromLE (l.take 8), l.drop 8) else none

/-- Modelled from the spec: the deserializer reconstructs a graph from
the structural description and the constants blob (inverse of
`serializeStruct`/`serializeBin`). -/
def deserializeModel (s c : List Nat) : Option Model :=
  match readU64 s with
  | none => none
  | some (n, rest) =>
    if n ≤ rest.length then
      some ⟨stringOfBytes (rest.take n), rest.drop n, c⟩
    else none

/-- The stream executor configuration (`ov::threading::IStreamsExecutor::Config`).
Modelled from the spec: it carries the configured stream count
(`num_streams`). The field mirrors `_streams` in the C++ struct. -/
structure StreamsExecutorConfig where
  streams : Nat
deriving DecidableEq, Repr

/-- Modelled from the spec: the `perf_mode` configuration option is an
enum; we model its two conventional values. -/
inductive PerfMode where
  | latency
  | throughput
deriving DecidableEq, Repr

/-- The string rendering of a performance mode value. -/
def PerfMode.render : PerfMode → String
  | .latency => "LATENCY"
  | .throughput => "THROUGHPUT"

/-- The plugin configuration (`Configuration`, config.hpp/config.cpp, not
under src/). Modelled from the spec: an immutable snapshot of the five
recognized options `device_id`, `num_streams` (held inside the stream
executor config), `enable_profiling`, `disable_transformations` and
`perf_mode`. -/
structure Configuration where
  device_id : Int
  streams_executor_config : StreamsExecutorConfig
  enable_profiling : Bool
  disable_transformations : Bool
  perf_mode : PerfMode
deriving DecidableEq, Repr

/-- Error kinds surfaced by the compiled model boundary. `OPENVINO_THROW`
raises the uniform compilation error kind with a diagnostic message;
`OPENVINO_NOT_IMPLEMENTED` raises `notImplemented`; an unrecognized
property key raises `notFound`. -/
inductive OVError where
  | compilationError (msg : String)
  | notImplemented
  | notFound
deriving DecidableEq, Repr

/-- Property values returned by `get_property` (`ov::Any`). -/
inductive PValue where
  | str (s : String)
  | strs (l : List String)
  | b (v : Bool)
  | n (v : Nat)
  | i (v : Int)
deriving DecidableEq, Repr

/-- Low-level exceptions a called library may raise during compilation:
a legacy `InferenceEngine::Exception`, a `std::exception`, or anything
else (the `catch (...)` case). -/
inductive LowLevelExn where
  | ieException (msg : String)
  | stdException (msg : String)
  | unknownException
deriving DecidableEq, Repr

/-- `Configuration::Get` (config.cpp, not under src/). Modelled from the
spec: the five recognized configuration options (`device_id`,
`num_streams`, `enable_profiling`, `disable_transformations`,
`perf_mode`) return their values; unknown keys on read fail with
`NotFound`. -/
def Configuration.Get (cfg : Configuration) (name : String) : Except OVError PValue :=
  if name = "DEVICE_ID" then .ok (.i cfg.device_id)
  else if name = "NUM_STREAMS" then .ok (.n cfg.streams_executor_config.streams)
  else if name = "PERF_COUNT" then .ok (.b cfg.enable_profiling)
  else if name = "DISABLE_TRANSFORMATIONS" then .ok (.b cfg.disable_transformations)
  else if name = "PERFORMANCE_HINT" then .ok (.str cfg.perf_mode.render)
  else .error .notFound

/-- The five keys recognized by `Configuration::Get` (modelled from the
spec, see `Configuration.Get`). -/
def configKeys : List String :=
  ["DEVICE_ID", "NUM_STREAMS", "PERF_COUNT", "DISABLE_TRANSFORMATIONS", "PERFORMANCE_HINT"]

/-- The plugin owning the compiled model; `get_plugin()->get_device_name()`
supplies the device name used for `execution_devices`. -/
structure Plugin where
  deviceName : String
deriving DecidableEq, Repr

/-- The compiled model state (fields of
`ov::template_plugin::CompiledModel`). -/
structure CompiledModel where
  m_cfg : Configuration
  m_model : Model
  m_loaded_from_cache : Bool
  m_plugin : Plugin
deriving DecidableEq, Repr

/-- `CompiledModel::compile_model`: if transformations are disabled the
graph is used verbatim and the transformer is not invoked; otherwise the
(externally supplied) `transform_model` runs on the graph. The
transformer is passed as a function since its passes live outside this
file; it may raise a low-level exception. -/
def compile_model (transform : Model → Except LowLevelExn Model)
    (cfg : Configuration) (model : Model) : Except LowLevelExn Model :=
  if cfg.disable_transformations then .ok model
  else transform model

/-- The `CompiledModel` constructor: runs `compile_model` and translates
every low-level exception into the single uniform error kind raised by
`OPENVINO_THROW`, with the diagnostic messages of the source. On success
the fields are initialized from the arguments (the possibly transformed
graph, the configuration, the `loaded_from_cache` flag). -/
def CompiledModel.construct (transform : Model → Except LowLevelExn Model)
    (model : Model) (plugin : Plugin) (cfg : Configuration)
    (loaded_from_cache : Bool) : Except OVError CompiledModel :=
  match compile_model transform cfg model with
  | .ok m => .ok ⟨cfg, m, loaded_from_cache, plugin⟩
  | .error (.ieException msg) => .error (.compilationError msg)
  | .error (.stdException msg) =>
      .error (.compilationError ("Standard exception from compilation library: " ++ msg))
  | .error .unknownException => .error (.compilationError "Generic exception is thrown")

/-- `CompiledModel::set_property`: `OPENVINO_NOT_IMPLEMENTED` is raised
before anything is touched, so the model is returned unchanged together
with the error. -/
def CompiledModel.set_property (m : CompiledModel) (_properties : List (String × PValue)) :
    CompiledModel × Except OVError Unit :=
  (m, .error .notImplemented)

/-- The default read-only property keys (`default_ro_properties`):
`ov::model_name`, `ov::supported_properties`, `ov::execution_devices`,
`ov::loaded_from_cache`, `ov::optimal_number_of_infer_requests`, by their
string names. -/
def roKeys : List String :=
  ["NETWORK_NAME", "SUPPORTED_PROPERTIES", "EXECUTION_DEVICES",
   "LOADED_FROM_CACHE", "OPTIMAL_NUMBER_OF_INFER_REQUESTS"]

/-- The default read-write property keys (`default_rw_properties`):
`ov::device::id` and `ov::enable_profiling`, by their string names. -/
def rwKeys : List String :=
  ["DEVICE_ID", "PERF_COUNT"]

/-- Modelled from the spec: the executor-specific stream-configuration
keys returned by `ov::threading::IStreamsExecutor::Config::get_property`
on `ov::supported_properties` (code outside src/); the spec names the
stream count among the configuration options. -/
def streamExecutorConfigKeys : List String :=
  ["NUM_STREAMS", "INFERENCE_NUM_THREADS", "AFFINITY"]

/-- `CompiledModel::get_property`, mirroring the dispatch order of the
source: the two legacy metric keys first, then the read-only keys, then
delegation to `Configuration::Get`. -/
def CompiledModel.get_property (m : CompiledModel) (name : String) : Except OVError PValue :=
  if "SUPPORTED_METRICS" = name then
    .ok (.strs (roKeys ++ ["SUPPORTED_METRICS", "SUPPORTED_CONFIG_KEYS"]))
  else if "SUPPORTED_CONFIG_KEYS" = name then
    .ok (.strs (rwKeys ++ streamExecutorConfigKeys))
  else if "NETWORK_NAME" = name then
    .ok (.str m.m_model.friendlyName)
  else if "LOADED_FROM_CACHE" = name then
    .ok (.b m.m_loaded_from_cache)
  else if "EXECUTION_DEVICES" = name then
    .ok (.strs [m.m_plugin.deviceName ++ "." ++ toString m.m_cfg.device_id])
  else if "OPTIMAL_NUMBER_OF_INFER_REQUESTS" = name then
    .ok (.n m.m_cfg.streams_executor_config.streams)
  else if "SUPPORTED_PROPERTIES" = name then
    .ok (.strs (roKeys ++ rwKeys))
  else
    m.m_cfg.Get name

/-- `CompiledModel::export_model`: serializes the graph into the xml and
bin payloads, then writes the 8-byte length of the structural payload,
the structural payload, the 8-byte length of the constants payload and
the constants payload to the stream, in that order. -/
def CompiledModel.export_model (m : CompiledModel) (model_stream : OStream) : OStream :=
  let xmlFile := serializeStruct m.m_model
  let binFile := serializeBin m.m_model
  let dataSize1 := xmlFile.length % 2 ^ 64
  let st1 := model_stream.write (u64le dataSize1)
  let st2 := st1.write (xmlFile.take dataSize1)
  let dataSize2 := binFile.length % 2 ^ 64
  let st3 := st2.write (u64le dataSize2)
  st3.write (binFile.take dataSize2)

/-- `Plugin::import_model` (plugin.cpp, not under src/). Modelled from
the spec: reads the two-part framing — an 8-byte length, the structural
bytes, an 8-byte length, the constants bytes — reconstructs the graph,
and marks the resulting compiled model `loaded_from_cache = true` without
re-applying transformations. -/
def Plugin.import_model (plugin : Plugin) (bytes : List Nat) (cfg : Configuration) :
    Option CompiledModel :=
  match readU64 bytes with
  | none => none
  | some (lenS, r1) =>
    if lenS ≤ r1.length then
      match readU64 (r1.drop lenS) with
      | none => none
      | some (lenB, r2) =>
        if lenB ≤ r2.length then
          match deserializeModel (r1.take lenS) (r2.take lenB) with
          | none => none
          | some model => some ⟨cfg, model, true, plugin⟩
        else none
    else none

/-- A small concrete graph used to exercise the definitions. -/
def testModel : Model :=
  ⟨"m", [1, 2], [3]⟩

/-- A concrete plugin with the reference device name. -/
def testPlugin : Plugin :=
  ⟨"TEMPLATE"⟩

/-- A concrete configuration with transformations enabled. -/
def testCfg : Configuration :=
  ⟨0, ⟨1⟩, false, false, .latency⟩

/-- A concrete configuration with transformations disabled. -/
def testCfgDisabled : Configuration :=
  ⟨0, ⟨1⟩, false, true, .latency⟩

/-- A concrete compiled model. -/
def testCM : CompiledModel :=
  ⟨testCfg, testModel, false, testPlugin⟩

/-- A transformer that succeeds, replacing the graph body. -/
def okTransform : Model → Except LowLevelExn Model :=
  fun m => .ok ⟨m.friendlyName, [7], m.constants⟩

/-- A transformer that raises an unknown low-level exception. -/
def failTransform : Model → Except LowLevelExn Model :=
  fun _ => .error .unknownException

theorem leBytes_length (k n : Nat) : (leBytes k n).length = k := by
  induction k generalizing n with
  | zero => rfl
  | succ k ih => simp [leBytes, ih]

theorem fromLE_leBytes (k n : Nat) : fromLE (leBytes k n) = n % 256 ^ k := by
  induction k generalizing n with
  | zero => simp [leBytes, fromLE, Nat.mod_one]
  | succ k ih =>
    have h : (256 : Nat) ^ (k + 1) = 256 * 256 ^ k := by ring
    simp [leBytes, fromLE, ih, h, Nat.mod_mul]

theorem fromLE_u64le (n : Nat) (h : n < 2 ^ 64) : fromLE (u64le n) = n := by
  have h256 : (256 : Nat) ^ 8 = 2 ^ 64 := by norm_num
  rw [u64le, fromLE_leBytes, h256]
  exact Nat.mod_eq_of_lt h

theorem u64le_length (n : Nat) : (u64le n).length = 8 :=
  leBytes_length 8 n

theorem readU64_u64le_append (n : Nat) (rest : List Nat) (h : n < 2 ^ 64) :
    readU64 (u64le n ++ rest) = some (n, rest) := by
  rw [readU64, if_pos]
  · rw [show (8 : Nat) = (u64le n).length from (u64le_length n).symm,
      List.take_left, List.drop_left, fromLE_u64le n h]
  · simp [List.length_append, u64le_length]

theorem stringOfBytes_bytesOfString (s : String) : stringOfBytes (bytesOfString s) = s := by
  have hmap : (s.data.map Char.toNat).map Char.ofNat = s.data := by
    rw [List.map_map]
    have : ∀ c ∈ s.data, (Char.ofNat ∘ Char.toNat) c = c := fun c _ => Char.ofNat_toNat c
    rw [List.map_congr_left this]
    exact List.map_id s.data
  rw [stringOfBytes, bytesOfString, hmap]

theorem deserializeModel_serializeStruct (m : Model)
    (h : (bytesOfString m.friendlyName).length < 2 ^ 64) :
    deserializeModel (serializeStruct m) (serializeBin m) = some m := by
  rw [deserializeModel, serializeStruct, readU64_u64le_append _ _ h]
  simp only
  rw [if_pos (by simp [List.length_append]), List.take_left, List.drop_left,
    stringOfBytes_bytesOfString, serializeBin]

theorem export_model_data (m : CompiledModel) (st : OStream)
    (hs : (serializeStruct m.m_model).length < 2 ^ 64)
    (hb : (serializeBin m.m_model).length < 2 ^ 64) :
    (m.export_model st).data =
      st.data ++ (u64le (serializeStruct m.m_model).length ++ (serializeStruct m.m_model ++
        (u64le (serializeBin m.m_model).length ++ serializeBin m.m_model))) := by
  simp only [CompiledModel.export_model, OStream.write]
  rw [Nat.mod_eq_of_lt hs, Nat.mod_eq_of_lt hb, List.take_length, List.take_length]
  simp [List.append_assoc]

/-- C1: for every compiled model, `export_model` writes exactly two
length-prefixed sections and nothing else: the 8-byte length of the
structural description, the structural bytes, the 8-byte length of the
constants blob, and the blob bytes, appended in this order to the
stream. -/
theorem c1_export_two_sections (m : CompiledModel) (st : OStream)
    (hs : (serializeStruct m.m_model).length < 2 ^ 64)
    (hb : (serializeBin m.m_model).length < 2 ^ 64) :
    (m.export_model st).data =
      st.data ++ (u64le (serializeStruct m.m_model).length ++ (serializeStruct m.m_model ++
        (u64le (serializeBin m.m_model).length ++ serializeBin m.m_model))) ∧
    (m.export_model st).data.length =
      st.data.length + 8 + (serializeStruct m.m_model).length + 8 +
        (serializeBin m.m_model).length := by
  have hdata := export_model_data m st hs hb
  refine ⟨hdata, ?_⟩
  rw [hdata]
  simp [List.length_append, u64le_length]
  omega

/-- Witness for C1 at a concrete compiled model and an empty stream. -/
theorem c1_export_two_sections_witness :
    (testCM.export_model ⟨[]⟩).data.length =
      (⟨[]⟩ : OStream).data.length + 8 + (serializeStruct testCM.m_model).length + 8 +
        (serializeBin testCM.m_model).length :=
  (c1_export_two_sections testCM ⟨[]⟩ (by decide) (by decide)).2

/-- C2: every low-level failure raised during compilation — legacy
exception, standard exception or unknown — is re-signalled by the
constructor as the single uniform compilation-error kind with a
diagnostic message, and no compiled model is returned. -/
theorem c2_compile_boundary_uniform (transform : Model → Except LowLevelExn Model)
    (model : Model) (plugin : Plugin) (cfg : Configuration) (loaded : Bool)
    (e : LowLevelExn) (h : compile_model transform cfg model = .error e) :
    (∃ msg, CompiledModel.construct transform model plugin cfg loaded =
      .error (.compilationError msg)) ∧
    ∀ cm, CompiledModel.construct transform model plugin cfg loaded ≠ .ok cm := by
  cases e <;> simp [CompiledModel.construct, h]

/-- Witness for C2 at a concrete failing transformer. -/
theorem c2_compile_boundary_uniform_witness :
    (∃ msg, CompiledModel.construct failTransform testModel testPlugin testCfg false =
      .error (.compilationError msg)) ∧
    ∀ cm, CompiledModel.construct failTransform testModel testPlugin testCfg false ≠ .ok cm :=
  c2_compile_boundary_uniform failTransform testModel testPlugin testCfg false
    .unknownException rfl

/-- C4: `set_property` always fails with `NotImplemented` and leaves the
compiled model (its configuration and graph) unchanged. -/
theorem c4_set_property_frozen (m : CompiledModel) (props : List (String × PValue)) :
    (m.set_property props).2 = .error OVError.notImplemented ∧
    (m.set_property props).1 = m :=
  ⟨rfl, rfl⟩

/-- C5: `compile_model` uses the graph verbatim, skipping the
transformer, exactly when `disable_transformations` is set; otherwise the
transformer is invoked on the graph. -/
theorem c5_transformations_toggle (transform : Model → Except LowLevelExn Model)
    (cfg : Configuration) (model : Model) :
    (cfg.disable_transformations = true →
      compile_model transform cfg model = .ok model) ∧
    (cfg.disable_transformations = false →
      compile_model transform cfg model = transform model) := by
  constructor <;> intro h <;> simp [compile_model, h]

/-- Witness for C5: both branches at concrete configurations. -/
theorem c5_transformations_toggle_witness :
    compile_model okTransform testCfgDisabled testModel = .ok testModel ∧
    compile_model okTransform testCfg testModel = okTransform testModel :=
  ⟨(c5_transformations_toggle okTransform testCfgDisabled testModel).1 rfl,
   (c5_transformations_toggle okTransform testCfg testModel).2 rfl⟩

/-- C7: `get_property` on `optimal_number_of_infer_requests` returns
exactly the stream count of the model configuration. -/
theorem c7_optimal_number_of_infer_requests (m : CompiledModel) :
    m.get_property "OPTIMAL_NUMBER_OF_INFER_REQUESTS" =
      .ok (.n m.m_cfg.streams_executor_config.streams) := by
  simp [CompiledModel.get_property]

/-- C9: the two legacy metric keys are recognized by `get_property`
before delegation to the configuration: `SUPPORTED_METRICS` answers with
the read-only keys plus the two metric keys, `SUPPORTED_CONFIG_KEYS`
answers with the read-write keys plus the stream-executor configuration
keys, and neither fails with `NotFound`. -/
theorem c9_legacy_metric_keys (m : CompiledModel) :
    m.get_property "SUPPORTED_METRICS" =
      .ok (.strs (roKeys ++ ["SUPPORTED_METRICS", "SUPPORTED_CONFIG_KEYS"])) ∧
    m.get_property "SUPPORTED_CONFIG_KEYS" =
      .ok (.strs (rwKeys ++ streamExecutorConfigKeys)) ∧
    m.get_property "SUPPORTED_METRICS" ≠ .error OVError.notFound ∧
    m.get_property "SUPPORTED_CONFIG_KEYS" ≠ .error OVError.notFound := by
  refine ⟨by simp [CompiledModel.get_property], by simp [CompiledModel.get_property], ?_, ?_⟩ <;>
    simp [CompiledModel.get_property]

/-- C10: `get_property` on `execution_devices` returns exactly one
device entry, the plugin device name, a dot, and the decimal configured
device id. -/
theorem c10_execution_devices (m : CompiledModel) :
    m.get_property "EXECUTION_DEVICES" =
      .ok (.strs [m.m_plugin.deviceName ++ "." ++ toString m.m_cfg.device_id]) ∧
    [m.m_plugin.deviceName ++ "." ++ toString m.m_cfg.device_id].length = 1 := by
  refine ⟨by simp [CompiledModel.get_property], rfl⟩

/-- C6 counterexample: the name `SUPPORTED_METRICS` is neither one of
the five fixed read-only property keys nor a recognized configuration
key, yet `get_property` succeeds on it instead of failing with
`NotFound`. -/
theorem c6_counterexample :
    "SUPPORTED_METRICS" ∉ roKeys ∧ "SUPPORTED_METRICS" ∉ configKeys ∧
    testCM.get_property "SUPPORTED_METRICS" ≠ .error OVError.notFound := by
  refine ⟨by decide, by decide, ?_⟩
  simp [CompiledModel.get_property]

/-- C6 amended: for every property name that is neither one of the fixed
read-only keys, nor one of the two legacy metric keys
`SUPPORTED_METRICS`/`SUPPORTED_CONFIG_KEYS`, nor a recognized
configuration key, `get_property` delegates to the configuration and
fails with `NotFound`. -/
theorem c6_unknown_name_not_found (m : CompiledModel) (name : String)
    (h1 : name ∉ roKeys)
    (h2 : name ≠ "SUPPORTED_METRICS")
    (h3 : name ≠ "SUPPORTED_CONFIG_KEYS")
    (h4 : name ∉ configKeys) :
    m.get_property name = .error OVError.notFound := by
  simp only [roKeys, List.mem_cons, List.not_mem_nil, or_false, not_or] at h1
  simp only [configKeys, List.mem_cons, List.not_mem_nil, or_false, not_or] at h4
  obtain ⟨hA, hB, hC, hD, hE⟩ := h1
  obtain ⟨hF, hG, hH, hI, hJ⟩ := h4
  simp [CompiledModel.get_property, Configuration.Get,
    Ne.symm h2, Ne.symm h3, Ne.symm hA, Ne.symm hB, Ne.symm hC, Ne.symm hD, Ne.symm hE,
    hF, hG, hH, hI, hJ]

/-- Witness for the amended C6 at a concrete unknown key. -/
theorem c6_unknown_name_not_found_witness :
    testCM.get_property "nonexistent_key_xyz" = .error OVError.notFound :=
  c6_unknown_name_not_found testCM "nonexistent_key_xyz"
    (by decide) (by decide) (by decide) (by decide)

/-- C8 counterexample: `get_property` on `supported_properties` returns
only the five read-only keys and the two read-write keys; the
executor-specific stream-configuration keys (for example `NUM_STREAMS`)
are not included, contrary to the claim. -/
theorem c8_counterexample :
    testCM.get_property "SUPPORTED_PROPERTIES" = .ok (.strs (roKeys ++ rwKeys)) ∧
    "NUM_STREAMS" ∈ streamExecutorConfigKeys ∧
    "NUM_STREAMS" ∉ roKeys ++ rwKeys := by
  refine ⟨by simp [CompiledModel.get_property], by decide, by decide⟩

/-- C8 amended: for every compiled model, `get_property` on
`supported_properties` returns exactly the five read-only keys plus the
two read-write keys `device_id` and `enable_profiling`; the
executor-specific stream-configuration keys are not part of the
answer. -/
theorem c8_supported_properties (m : CompiledModel) :
    m.get_property "SUPPORTED_PROPERTIES" = .ok (.strs (roKeys ++ rwKeys)) ∧
    roKeys ++ rwKeys =
      ["NETWORK_NAME", "SUPPORTED_PROPERTIES", "EXECUTION_DEVICES",
       "LOADED_FROM_CACHE", "OPTIMAL_NUMBER_OF_INFER_REQUESTS",
       "DEVICE_ID", "PERF_COUNT"] ∧
    ∀ k ∈ streamExecutorConfigKeys, k ∉ roKeys ++ rwKeys := by
  refine ⟨by simp [CompiledModel.get_property], by decide, by decide⟩

/-- C3: importing the bytes produced by exporting a compiled model
yields a model with the same graph — hence identical outputs for
identical inputs under any execution semantics — whose
`loaded_from_cache` property reads true; moreover `get_property` returns
the `loaded_from_cache` flag supplied at construction unchanged. -/
theorem c3_import_export_roundtrip (m : CompiledModel) (cfg2 : Configuration) (p2 : Plugin)
    (hname : (bytesOfString m.m_model.friendlyName).length < 2 ^ 64)
    (hs : (serializeStruct m.m_model).length < 2 ^ 64)
    (hb : (serializeBin m.m_model).length < 2 ^ 64) :
    ∃ m2 : CompiledModel,
      p2.import_model (m.export_model ⟨[]⟩).data cfg2 = some m2 ∧
      m2.m_model = m.m_model ∧
      (∀ (run : Model → List Int → List Int) (input : List Int),
        run m2.m_model input = run m.m_model input) ∧
      m2.get_property "LOADED_FROM_CACHE" = .ok (.b true) ∧
      (∀ mm : CompiledModel,
        mm.get_property "LOADED_FROM_CACHE" = .ok (.b mm.m_loaded_from_cache)) := by
  refine ⟨⟨cfg2, m.m_model, true, p2⟩, ?_, rfl, fun run input => rfl,
    by simp [CompiledModel.get_property], fun mm => by simp [CompiledModel.get_property]⟩
  have hdata := export_model_data m ⟨[]⟩ hs hb
  simp only [hdata, List.nil_append]
  rw [Plugin.import_model, readU64_u64le_append _ _ hs]
  simp only
  rw [if_pos (by simp [List.length_append]), List.take_left, List.drop_left,
    readU64_u64le_append _ _ hb]
  simp only
  rw [if_pos (le_refl _), List.take_length, deserializeModel_serializeStruct m.m_model hname]

/-- Witness for C3 at a concrete compiled model, configuration and
plugin. -/
theorem c3_import_export_roundtrip_witness :
    ∃ m2 : CompiledModel,
      testPlugin.import_model (testCM.export_model ⟨[]⟩).data testCfgDisabled = some m2 ∧
      m2.m_model = testCM.m_model ∧
      (∀ (run : Model → List Int → List Int) (input : List Int),
        run m2.m_model input = run testCM.m_model input) ∧
      m2.get_property "LOADED_FROM_CACHE" = .ok (.b true) ∧
      (∀ mm : CompiledModel,
        mm.get_property "LOADED_FROM_CACHE" = .ok (.b mm.m_loaded_from_cache)) :=
  c3_import_export_roundtrip testCM testCfgDisabled testPlugin
    (by decide) (by decide) (by decide)

end OvTemplate
